import Mathlib

/-!
Shallow embedding of the chunked-analysis pipeline of epistemicengine.xyz.

The embedding translates the server-side core (src/server/processing.ts,
src/server/epistemic-prompts.ts including the AI gateway,
src/unnamed/part_003 stance/doctrine code) into Lean definitions.
Design choices:

* JavaScript numbers are embedded as `Rat` (all constants appearing in the
  code are exactly representable; the spec-level claims are about exact
  arithmetic relations, not floating-point rounding).  The continuity
  module's `cosineSimilarity`, which calls `Math.sqrt`, is embedded over
  `Real`.
* `x ?? d` (nullish coalescing) becomes `Option.getD`; `x || d` becomes a
  falsy-aware default (`""` and `0` count as falsy).
* JSON replies from the backend are embedded as structures whose fields are
  `Option`-valued; `JSON.parse` failure / gateway exhaustion is the
  `Except.error` case of the backend outcome.
* String primitives (trim, split, prefix/suffix tests) are implemented
  structurally over `List Char` so that every definition reduces inside the
  kernel; they mirror the JavaScript string methods used by the source.
* Regular-expression *tests* over input text (the inference-marker heuristic
  and the stance pattern groups) are opaque environment data: functions are
  parameterised by the match result / per-category match counts, while all
  downstream selection, scoring and defaulting logic is translated verbatim.
-/

namespace EpistemicEngine

/-- Structural model of `String.prototype.trim`: drop whitespace from both
ends of the character list. -/
def trimChars (l : List Char) : List Char :=
  ((l.dropWhile Char.isWhitespace).reverse.dropWhile Char.isWhitespace).reverse

/-- `trim` on strings, via `trimChars`. -/
def strTrim (s : String) : String :=
  ⟨trimChars s.data⟩

/-- Structural model of `String.prototype.split` with a single-character
class: split at every matching character, keeping empty pieces (which the
source code always filters out afterwards, making this equivalent to
splitting on runs as JavaScript regex split does). -/
def splitChars (p : Char → Bool) : List Char → List (List Char)
  | [] => [[]]
  | c :: cs =>
    match splitChars p cs with
    | [] => [[]]
    | h :: t => if p c then [] :: h :: t else (c :: h) :: t

/-- `countWords` from src/server/processing.ts: trim, split on whitespace,
count the nonempty pieces. -/
def countWords (text : String) : Nat :=
  ((splitChars Char.isWhitespace (trimChars text.data)).filter
    fun w => w.length > 0).length

/-- State threaded through the sentence-packing inner loop of `segmentText`
(`segments`, `sentenceBuffer`, `sentenceWordCount`). -/
def sentenceStep (maxWords : Nat) (st : List String × List String × Nat)
    (sentence : String) : List String × List String × Nat :=
  let sentenceWords := countWords sentence
  if st.2.2 + sentenceWords > maxWords ∧ st.2.1 ≠ [] then
    (st.1 ++ [String.intercalate ". " st.2.1 ++ "."], [strTrim sentence], sentenceWords)
  else
    (st.1, st.2.1 ++ [strTrim sentence], st.2.2 + sentenceWords)

/-- One iteration of the paragraph loop of `segmentText`
(state: `segments`, `currentSegment`, `currentWordCount`). -/
def paragraphStep (maxWords : Nat) (st : List String × List String × Nat)
    (paragraph : String) : List String × List String × Nat :=
  let paragraphWords := countWords paragraph
  if paragraphWords > maxWords then
    let segments :=
      if st.2.1 ≠ [] then st.1 ++ [String.intercalate "\n\n" st.2.1] else st.1
    let sentences :=
      ((splitChars (fun c => c == '.' || c == '!' || c == '?') paragraph.data).map
        fun l => (⟨l⟩ : String)).filter fun s => (strTrim s).length > 0
    let inner := sentences.foldl (sentenceStep maxWords) (segments, [], 0)
    let segs :=
      if inner.2.1 ≠ [] then
        inner.1 ++ [String.intercalate ". " inner.2.1 ++ "."]
      else inner.1
    (segs, [], 0)
  else
    if st.2.2 + paragraphWords > maxWords ∧ st.2.1 ≠ [] then
      (st.1 ++ [String.intercalate "\n\n" st.2.1], [strTrim paragraph], paragraphWords)
    else
      (st.1, st.2.1 ++ [strTrim paragraph], st.2.2 + paragraphWords)

/-- `segmentText` from src/server/processing.ts: texts within the word budget
are returned as a single chunk unchanged; longer texts are split greedily on
paragraph boundaries, with oversized paragraphs re-split on sentence
terminators. -/
def segmentText (text : String) (maxWords : Nat) : List String :=
  if countWords text ≤ maxWords then [text]
  else
    let paragraphs :=
      ((splitChars (fun c => c == '\n') text.data).map
        fun l => (⟨l⟩ : String)).filter fun p => (strTrim p).length > 0
    let final := paragraphs.foldl (paragraphStep maxWords) ([], [], 0)
    if final.2.1 ≠ [] then
      final.1 ++ [String.intercalate "\n\n" final.2.1]
    else final.1

/-- The closed provider enumeration of src/server/epistemic-prompts.ts
(ai-service): `type AIProvider = "anthropic" | "openai" | "deepseek"`. -/
inductive AIProvider
  | anthropic
  | openai
  | deepseek
deriving DecidableEq, Repr

/-- The canonical failover chain `["anthropic", "openai", "deepseek"]`. -/
def providerChain : List AIProvider :=
  [.anthropic, .openai, .deepseek]

/-- Trial order built by `getAICompletion`: preferred provider first, then
the remaining providers of the canonical chain. -/
def sortedProviders (preferredProvider : AIProvider) : List AIProvider :=
  preferredProvider :: providerChain.filter fun p => p ≠ preferredProvider

/-- `isPrefixOf`-style suffix test on character lists. -/
def endsWithChars (suffix l : List Char) : Bool :=
  suffix.reverse.isPrefixOf l.reverse

/-- `cleanJSONResponse` from the AI gateway: trims the reply and, when the
whole trimmed reply is wrapped in one markdown code fence (``` or ```json),
returns the trimmed inner text; otherwise returns the trimmed reply.  This
computes the regex `^(three backticks)(json)?\s*\n?([all]*?)\n?(three
backticks)$` capture: the lazy group plus the surrounding optional
whitespace is exactly the region between the fences, and the final `trim`
of the captured group makes the two descriptions agree. -/
def cleanJSONResponse (response : String) : String :=
  let cleaned := trimChars response.data
  if ("```".data).isPrefixOf cleaned then
    let afterOpen := cleaned.drop 3
    let afterLang :=
      if ("json".data).isPrefixOf afterOpen then afterOpen.drop 4 else afterOpen
    if endsWithChars "```".data afterLang then
      ⟨trimChars ((afterLang.reverse.drop 3).reverse)⟩
    else ⟨cleaned⟩
  else ⟨cleaned⟩

/-- Rendering of `lastError?.message` in the final error template (`null`
prints as `undefined` in the JS template literal). -/
def optMessage : Option String → String
  | some e => e
  | none => "undefined"

/-- The provider loop of `getAICompletion`, instrumented with the list of
providers actually attempted.  `backend p` is the outcome of the one
network call to provider `p` (the per-provider helpers apply
`cleanJSONResponse` to a successful reply); `lastError` is the error
recorded from previous failed attempts. -/
def attemptProviders (backend : AIProvider → Except String String) :
    List AIProvider → Option String → List AIProvider × Except String String
  | [], lastError =>
    ([], .error ("All AI providers failed. Last error: " ++ optMessage lastError))
  | p :: ps, lastError =>
    match backend p with
    | .ok t => ([p], .ok (cleanJSONResponse t))
    | .error e =>
      let rest := attemptProviders backend ps (some e)
      (p :: rest.1, rest.2)

/-- `getAICompletion` with its attempt trace: tries `sortedProviders
preferredProvider` in order starting with no recorded error. -/
def getAICompletionRun (backend : AIProvider → Except String String)
    (preferredProvider : AIProvider) : List AIProvider × Except String String :=
  attemptProviders backend (sortedProviders preferredProvider) none

/-- `getAICompletion` from src/server/epistemic-prompts.ts (result only). -/
def getAICompletion (backend : AIProvider → Except String String)
    (preferredProvider : AIProvider) : Except String String :=
  (getAICompletionRun backend preferredProvider).2

/-- Helper lemma: the provider loop skips every failing provider and stops at
the first success, returning its cleaned reply. -/
theorem attemptProviders_skip_failures (backend : AIProvider → Except String String)
    (t : String) (p : AIProvider) :
    ∀ (l1 l2 : List AIProvider) (le : Option String),
      (∀ q ∈ l1, ∃ e, backend q = .error e) → backend p = .ok t →
      attemptProviders backend (l1 ++ p :: l2) le =
        (l1 ++ [p], .ok (cleanJSONResponse t))
  | [], l2, le, _, hok => by simp [attemptProviders, hok]
  | q :: l1, l2, le, hfail, hok => by
    obtain ⟨e, he⟩ := hfail q (by simp)
    have ih := attemptProviders_skip_failures backend t p l1 l2 (some e)
      (fun r hr => hfail r (by simp [hr])) hok
    simp [attemptProviders, he, ih]

/-- Helper lemma: when every provider in the list fails, the loop attempts
all of them and raises the aggregate error built from the error recorded
last. -/
theorem attemptProviders_all_fail (backend : AIProvider → Except String String) :
    ∀ (l : List AIProvider) (le : Option String),
      (∀ q ∈ l, ∃ e, backend q = .error e) →
      attemptProviders backend l le =
        (l, .error ("All AI providers failed. Last error: " ++
          optMessage (l.foldl
            (fun acc q => match backend q with | .error e => some e | .ok _ => acc)
            le)))
  | [], le, _ => by simp [attemptProviders]
  | q :: l, le, hfail => by
    obtain ⟨e, he⟩ := hfail q (by simp)
    have ih := attemptProviders_all_fail backend l (some e)
      (fun r hr => hfail r (by simp [hr]))
    simp [attemptProviders, he, ih, List.foldl_cons]

/-- Helper lemma: if some provider of the list succeeds, the loop does not
raise. -/
theorem attemptProviders_mem_ok (backend : AIProvider → Except String String)
    (p : AIProvider) (t : String) :
    ∀ (l : List AIProvider) (le : Option String), p ∈ l → backend p = .ok t →
      ∃ s, (attemptProviders backend l le).2 = .ok s
  | [], _, hmem, _ => absurd hmem (List.not_mem_nil p)
  | q :: l, le, hmem, hok => by
    cases hq : backend q with
    | ok u => exact ⟨cleanJSONResponse u, by simp [attemptProviders, hq]⟩
    | error e =>
      have hpl : p ∈ l := by
        rcases List.mem_cons.mp hmem with rfl | h
        · rw [hok] at hq; exact absurd hq (by simp)
        · exact h
      obtain ⟨s, hs⟩ := attemptProviders_mem_ok backend p t l (some e) hpl hok
      exact ⟨s, by simp [attemptProviders, hq, hs]⟩

/-- Helper lemma: the accumulated last error after an all-failing list is the
failure message of its last element. -/
theorem foldl_lastError_all_fail (backend : AIProvider → Except String String) :
    ∀ (l : List AIProvider) (p : AIProvider) (e : String) (le : Option String),
      backend p = .error e →
      (l ++ [p]).foldl
          (fun acc q => match backend q with | .error e => some e | .ok _ => acc)
          le = some e
  | [], p, e, le, he => by simp [he]
  | q :: l, p, e, le, he => by
    cases hq : backend q with
    | ok u => simpa [hq] using foldl_lastError_all_fail backend l p e le he
    | error e' => simpa [hq] using foldl_lastError_all_fail backend l p e (some e') he

/-- C2: the gateway attempts providers in the order "preferred first, then
the rest of the canonical chain"; that order has no duplicates (each
provider is tried at most once); the attempts stop at the first success; and
the returned text is the first succeeding provider's reply with a single
outer markdown code fence stripped (`cleanJSONResponse`). -/
theorem getAICompletion_failover_order (backend : AIProvider → Except String String)
    (P : AIProvider) (l1 l2 : List AIProvider) (p : AIProvider) (t : String)
    (horder : sortedProviders P = l1 ++ p :: l2)
    (hfail : ∀ q ∈ l1, ∃ e, backend q = .error e)
    (hok : backend p = .ok t) :
    getAICompletionRun backend P = (l1 ++ [p], .ok (cleanJSONResponse t)) ∧
      (sortedProviders P).Nodup ∧
      sortedProviders P = P :: providerChain.filter fun q => q ≠ P := by
  refine ⟨?_, by cases P <;> decide, rfl⟩
  unfold getAICompletionRun
  rw [horder]
  exact attemptProviders_skip_failures backend t p l1 l2 none hfail hok

/-- Concrete backend used by the gateway witnesses: two providers down, the
third replying with a fenced JSON payload. -/
def witnessBackend : AIProvider → Except String String
  | .anthropic => .error "anthropic down"
  | .openai => .error "openai down"
  | .deepseek => .ok "```json\n[1, 2]\n```"

/-- Witness for C2: with preferred provider `openai`, where `openai` and
`anthropic` fail and `deepseek` succeeds, the attempt order is
`[openai, anthropic, deepseek]`, no provider is attempted twice, and the
result is deepseek's reply with the code fence stripped. -/
theorem getAICompletion_failover_order_witness :
    getAICompletionRun witnessBackend AIProvider.openai =
      ([AIProvider.openai, AIProvider.anthropic, AIProvider.deepseek],
        .ok "[1, 2]") := by
  have h := getAICompletion_failover_order witnessBackend AIProvider.openai
    [AIProvider.openai, AIProvider.anthropic] [] AIProvider.deepseek
    "```json\n[1, 2]\n```" (by decide)
    (by
      intro q hq
      fin_cases hq
      · exact ⟨"openai down", rfl⟩
      · exact ⟨"anthropic down", rfl⟩)
    rfl
  have hclean : cleanJSONResponse "```json\n[1, 2]\n```" = "[1, 2]" := by decide
  rw [h.1, hclean]
  rfl

/-- C3: the gateway raises if and only if every provider in the trial order
fails; in that case no completion text is returned and the raised error
message embeds the failure message of the last provider attempted. -/
theorem getAICompletion_error_iff (backend : AIProvider → Except String String)
    (P : AIProvider) :
    ((∃ m, getAICompletion backend P = .error m) ↔
      ∀ q ∈ sortedProviders P, ∃ e, backend q = .error e) ∧
    (∀ (l1 : List AIProvider) (p : AIProvider) (e : String),
      sortedProviders P = l1 ++ [p] →
      (∀ q ∈ sortedProviders P, ∃ e', backend q = .error e') →
      backend p = .error e →
      getAICompletion backend P =
        .error ("All AI providers failed. Last error: " ++ e)) := by
  constructor
  · constructor
    · intro ⟨m, hm⟩ q hq
      cases hqe : backend q with
      | error e => exact ⟨e, rfl⟩
      | ok t =>
        obtain ⟨s, hs⟩ :=
          attemptProviders_mem_ok backend q t (sortedProviders P) none hq hqe
        rw [getAICompletion, getAICompletionRun] at hm
        rw [hm] at hs
        exact absurd hs (by simp)
    · intro hall
      rw [getAICompletion, getAICompletionRun,
        attemptProviders_all_fail backend (sortedProviders P) none hall]
      exact ⟨_, rfl⟩
  · intro l1 p e horder hall he
    rw [getAICompletion, getAICompletionRun,
      attemptProviders_all_fail backend (sortedProviders P) none hall, horder,
      foldl_lastError_all_fail backend l1 p e none he]
    rfl

/-- Witness for C3: with every provider failing and preferred provider
`anthropic`, the gateway raises and its message carries the last attempted
provider's (deepseek's) failure message. -/
def witnessBackendAllFail : AIProvider → Except String String
  | .anthropic => .error "anthropic down"
  | .openai => .error "openai down"
  | .deepseek => .error "deepseek down"

/-- Witness for C3 at a concrete all-failing backend. -/
theorem getAICompletion_error_iff_witness :
    getAICompletion witnessBackendAllFail AIProvider.anthropic =
      .error "All AI providers failed. Last error: deepseek down" := by
  refine (getAICompletion_error_iff witnessBackendAllFail AIProvider.anthropic).2
    [AIProvider.anthropic, AIProvider.openai] AIProvider.deepseek "deepseek down"
    (by decide) ?_ rfl
  intro q hq
  fin_cases hq
  · exact ⟨"anthropic down", rfl⟩
  · exact ⟨"openai down", rfl⟩
  · exact ⟨"deepseek down", rfl⟩

/-- JavaScript `x || d` for strings: `null`/`undefined`/`""` fall back to the
default. -/
def jsOrString (o : Option String) (d : String) : String :=
  match o with
  | some v => if v = "" then d else v
  | none => d

/-- Argument entity (shared/schema.ts `argumentSchema`). -/
structure Argument where
  id : String
  coreClaim : String
  explicitPremises : List String
  hiddenPremises : List String
  inferenceType : String
deriving Repr, DecidableEq, Inhabited

/-- Judgment record (shared/schema.ts `judgmentSchema`); `coherenceScore` is
declared there as `z.number().min(0).max(1)`. -/
structure Judgment where
  coherenceScore : ℚ
  reasoningType : String
  logicalSoundness : String
  conceptualCompleteness : String
  issues : List String
deriving Repr, DecidableEq, Inhabited

/-- Result of the epistemic-inference module (shared/schema.ts);
`overallCoherence` is declared as `z.number().min(0).max(1)`. -/
structure EpistemicInferenceResult where
  arguments : List Argument
  judgment : Judgment
  rewrittenText : String
  overallCoherence : ℚ
  metaJudgment : Option String
deriving Repr, DecidableEq, Inhabited

/-- The `judgment` object of a parsed backend reply: every field may be
missing. -/
structure JudgmentJSON where
  coherenceScore : Option ℚ
  reasoningType : Option String
  logicalSoundness : Option String
  conceptualCompleteness : Option String
  issues : Option (List String)
deriving Repr, DecidableEq, Inhabited

/-- A parsed backend reply for the epistemic-inference module: every field
may be missing. -/
structure EpistemicInferenceJSON where
  arguments : Option (List Argument)
  judgment : Option JudgmentJSON
  rewrittenText : Option String
  overallCoherence : Option ℚ
  metaJudgment : Option String
deriving Repr, DecidableEq, Inhabited

/-- The default-filling step of `processEpistemicInferenceChunk`
(src/server/processing.ts, lines 156-172), applied to the JSON object parsed
from the gateway reply. -/
def processEpistemicInferenceChunk (text : String)
    (result : EpistemicInferenceJSON) : EpistemicInferenceResult where
  arguments := result.arguments.getD []
  judgment :=
    { coherenceScore := (result.judgment.bind (·.coherenceScore)).getD (1/2)
      reasoningType := (result.judgment.bind (·.reasoningType)).getD "Unknown"
      logicalSoundness :=
        (result.judgment.bind (·.logicalSoundness)).getD "Unable to assess"
      conceptualCompleteness :=
        (result.judgment.bind (·.conceptualCompleteness)).getD "Unable to assess"
      issues := (result.judgment.bind (·.issues)).getD [] }
  rewrittenText := jsOrString result.rewrittenText text
  overallCoherence :=
    (result.overallCoherence.orElse
      fun _ => result.judgment.bind (·.coherenceScore)).getD (1/2)
  metaJudgment := result.metaJudgment

/-- Claim entity of the justification-builder module (shared/schema.ts). -/
structure DetectedClaim where
  claim : String
  isUnderdeveloped : Bool
deriving Repr, DecidableEq, Inhabited

/-- Justification chain entity (shared/schema.ts). -/
structure JustificationChain where
  claim : String
  premises : List String
  conclusion : String
  evidenceType : String
deriving Repr, DecidableEq, Inhabited

/-- Result of the justification-builder module (shared/schema.ts);
`coherenceScore` is declared as `z.number().min(0).max(1)`. -/
structure JustificationBuilderResult where
  detectedClaims : List DetectedClaim
  justificationChains : List JustificationChain
  coherenceScore : ℚ
  completeness : String
  weaknesses : List String
  rewrittenText : String
deriving Repr, DecidableEq, Inhabited

/-- A parsed backend reply for the justification-builder module. -/
structure JustificationBuilderJSON where
  detectedClaims : Option (List DetectedClaim)
  justificationChains : Option (List JustificationChain)
  coherenceScore : Option ℚ
  completeness : Option String
  weaknesses : Option (List String)
  rewrittenText : Option String
deriving Repr, DecidableEq, Inhabited

/-- The default-filling step of `processJustificationBuilderChunk`
(src/server/processing.ts, lines 227-236). -/
def processJustificationBuilderChunk (text : String)
    (result : JustificationBuilderJSON) : JustificationBuilderResult where
  detectedClaims := result.detectedClaims.getD []
  justificationChains := result.justificationChains.getD []
  coherenceScore := result.coherenceScore.getD (1/2)
  completeness := jsOrString result.completeness "Unable to assess"
  weaknesses := result.weaknesses.getD []
  rewrittenText := jsOrString result.rewrittenText text

/-- Utility mapping entity (shared/schema.ts). -/
structure UtilityMapping where
  type : String
  derivedUtility : String
  description : String
deriving Repr, DecidableEq, Inhabited

/-- Judgment report of the knowledge-utility module (shared/schema.ts). -/
structure JudgmentReport where
  breadth : String
  depth : String
  limitations : List String
  transformativePotential : String
deriving Repr, DecidableEq, Inhabited

/-- Result of the knowledge-utility module (shared/schema.ts); `utilityRank`
is declared as `z.number().min(0).max(10)`. -/
structure KnowledgeUtilityResult where
  operativeKnowledge : List String
  utilityMappings : List UtilityMapping
  utilityAugmentedRewrite : String
  judgmentReport : JudgmentReport
  utilityRank : ℚ
deriving Repr, DecidableEq, Inhabited

/-- The `judgmentReport` object of a parsed backend reply. -/
structure JudgmentReportJSON where
  breadth : Option String
  depth : Option String
  limitations : Option (List String)
  transformativePotential : Option String
deriving Repr, DecidableEq, Inhabited

/-- A parsed backend reply for the knowledge-utility module. -/
structure KnowledgeUtilityJSON where
  operativeKnowledge : Option (List String)
  utilityMappings : Option (List UtilityMapping)
  utilityAugmentedRewrite : Option String
  judgmentReport : Option JudgmentReportJSON
  utilityRank : Option ℚ
deriving Repr, DecidableEq, Inhabited

/-- The default-filling step of `processKnowledgeUtilityChunk`
(src/server/processing.ts, lines 285-299). -/
def processKnowledgeUtilityChunk (text : String)
    (result : KnowledgeUtilityJSON) : KnowledgeUtilityResult where
  operativeKnowledge := result.operativeKnowledge.getD []
  utilityMappings := result.utilityMappings.getD []
  utilityAugmentedRewrite := jsOrString result.utilityAugmentedRewrite text
  judgmentReport :=
    { breadth :=
        jsOrString (result.judgmentReport.bind (·.breadth)) "Unable to assess"
      depth :=
        jsOrString (result.judgmentReport.bind (·.depth)) "Unable to assess"
      limitations := (result.judgmentReport.bind (·.limitations)).getD []
      transformativePotential :=
        jsOrString (result.judgmentReport.bind (·.transformativePotential))
          "Unable to assess" }
  utilityRank := result.utilityRank.getD 5

/-- Diagnostic block of the cognitive-integrity module: seven [0,1] metrics
plus a categorical label. -/
structure DiagnosticBlock where
  RealityAnchor : ℚ
  CausalDepth : ℚ
  Friction : ℚ
  Compression : ℚ
  SimulationIndex : ℚ
  LevelCoherence : ℚ
  CompositeScore : ℚ
  IntegrityType : String
deriving Repr, DecidableEq, Inhabited

/-- Result of the cognitive-integrity module. -/
structure CognitiveIntegrityResult where
  authenticity_commentary : String
  reconstructed_passage : String
  diagnostic_block : DiagnosticBlock
  interpretation_summary : String
deriving Repr, DecidableEq, Inhabited

/-- The `diagnostic_block` object of a parsed backend reply. -/
structure DiagnosticBlockJSON where
  RealityAnchor : Option ℚ
  CausalDepth : Option ℚ
  Friction : Option ℚ
  Compression : Option ℚ
  SimulationIndex : Option ℚ
  LevelCoherence : Option ℚ
  CompositeScore : Option ℚ
  IntegrityType : Option String
deriving Repr, DecidableEq, Inhabited

/-- A parsed backend reply for the cognitive-integrity module. -/
structure CognitiveIntegrityJSON where
  authenticity_commentary : Option String
  reconstructed_passage : Option String
  diagnostic_block : Option DiagnosticBlockJSON
  interpretation_summary : Option String
deriving Repr, DecidableEq, Inhabited

/-- The default-filling step of `processCognitiveIntegrityChunk`
(src/server/processing.ts, lines 351-367). -/
def processCognitiveIntegrityChunk (text : String)
    (result : CognitiveIntegrityJSON) : CognitiveIntegrityResult where
  authenticity_commentary :=
    jsOrString result.authenticity_commentary "Unable to assess authenticity"
  reconstructed_passage := jsOrString result.reconstructed_passage text
  diagnostic_block :=
    { RealityAnchor := (result.diagnostic_block.bind (·.RealityAnchor)).getD (1/2)
      CausalDepth := (result.diagnostic_block.bind (·.CausalDepth)).getD (1/2)
      Friction := (result.diagnostic_block.bind (·.Friction)).getD (1/2)
      Compression := (result.diagnostic_block.bind (·.Compression)).getD (1/2)
      SimulationIndex :=
        (result.diagnostic_block.bind (·.SimulationIndex)).getD (1/2)
      LevelCoherence :=
        (result.diagnostic_block.bind (·.LevelCoherence)).getD (1/2)
      CompositeScore :=
        (result.diagnostic_block.bind (·.CompositeScore)).getD (1/2)
      IntegrityType :=
        jsOrString (result.diagnostic_block.bind (·.IntegrityType)) "Unknown" }
  interpretation_summary :=
    jsOrString result.interpretation_summary "Unable to provide interpretation"

/-- `reduce((sum, r) => sum + f(r), 0)` as used by every chunk synthesizer. -/
def sumBy (rs : List α) (f : α → ℚ) : ℚ :=
  rs.foldl (fun sum r => sum + f r) 0

/-- The synthesis step of `processEpistemicInference`
(src/server/processing.ts, lines 193-212), applied to the per-chunk results
of a multi-chunk run; `totalWords` is `countWords(text)` of the full input. -/
def synthesizeEpistemicInference (totalWords : Nat)
    (chunkResults : List EpistemicInferenceResult) : EpistemicInferenceResult :=
  let chunksLen := chunkResults.length
  let avgCoherence := sumBy chunkResults (·.overallCoherence) / (chunksLen : ℚ)
  { arguments := (chunkResults.map (·.arguments)).flatten
    judgment :=
      { coherenceScore := avgCoherence
        reasoningType := chunkResults.headI.judgment.reasoningType
        logicalSoundness :=
          "Synthesized from " ++ toString chunksLen ++ " chunks. Overall: " ++
            (if avgCoherence > 7/10 then "Sound"
             else if avgCoherence > 1/2 then "Moderate" else "Weak")
        conceptualCompleteness :=
          "Analysis across " ++ toString chunksLen ++ " text segments"
        issues := (chunkResults.map (·.judgment.issues)).flatten }
    rewrittenText :=
      String.intercalate "\n\n" (chunkResults.map (·.rewrittenText))
    overallCoherence := avgCoherence
    metaJudgment := some ("This analysis synthesizes results from " ++
      toString chunksLen ++ " text chunks (" ++ toString totalWords ++
      " words total). Individual chunk coherence scores averaged to produce the overall assessment.") }

/-- The synthesis step of `processJustificationBuilder`
(src/server/processing.ts, lines 257-270). -/
def synthesizeJustificationBuilder
    (chunkResults : List JustificationBuilderResult) : JustificationBuilderResult :=
  let chunksLen := chunkResults.length
  let avgCoherence := sumBy chunkResults (·.coherenceScore) / (chunksLen : ℚ)
  { detectedClaims := (chunkResults.map (·.detectedClaims)).flatten
    justificationChains := (chunkResults.map (·.justificationChains)).flatten
    coherenceScore := avgCoherence
    completeness :=
      "Analyzed across " ++ toString chunksLen ++
        " text segments. Overall assessment: " ++
        (if avgCoherence > 7/10 then "Complete"
         else if avgCoherence > 1/2 then "Moderately complete" else "Incomplete")
    weaknesses := (chunkResults.map (·.weaknesses)).flatten
    rewrittenText :=
      String.intercalate "\n\n" (chunkResults.map (·.rewrittenText)) }

/-- The synthesis step of `processKnowledgeUtility`
(src/server/processing.ts, lines 319-336). -/
def synthesizeKnowledgeUtility
    (chunkResults : List KnowledgeUtilityResult) : KnowledgeUtilityResult :=
  let chunksLen := chunkResults.length
  let avgUtilityRank := sumBy chunkResults (·.utilityRank) / (chunksLen : ℚ)
  { operativeKnowledge := (chunkResults.map (·.operativeKnowledge)).flatten
    utilityMappings := (chunkResults.map (·.utilityMappings)).flatten
    utilityAugmentedRewrite :=
      String.intercalate "\n\n" (chunkResults.map (·.utilityAugmentedRewrite))
    judgmentReport :=
      { breadth := "Synthesized from " ++ toString chunksLen ++ " text segments"
        depth := chunkResults.headI.judgmentReport.depth
        limitations := (chunkResults.map (·.judgmentReport.limitations)).flatten
        transformativePotential :=
          "Analysis across " ++ toString chunksLen ++ " chunks reveals " ++
            (if avgUtilityRank > 7 then "high"
             else if avgUtilityRank > 5 then "moderate" else "limited") ++
            " transformative potential" }
    utilityRank := avgUtilityRank }

/-- The synthesis step of `processCognitiveIntegrity`
(src/server/processing.ts, lines 388-428), including the re-derivation of
the categorical `IntegrityType` from the averaged composite score. -/
def synthesizeCognitiveIntegrity (totalWords : Nat)
    (chunkResults : List CognitiveIntegrityResult) : CognitiveIntegrityResult :=
  let chunksLen := chunkResults.length
  let allCommentaries := String.intercalate " "
    (chunkResults.enum.map fun ir =>
      "Chunk " ++ toString (ir.1 + 1) ++ ": " ++ ir.2.authenticity_commentary)
  let avgCompositeScore :=
    sumBy chunkResults (·.diagnostic_block.CompositeScore) / (chunksLen : ℚ)
  let integrityType :=
    if avgCompositeScore ≥ 4/5 then "High-Integrity Source (Synthesized)"
    else if avgCompositeScore ≥ 1/2 then "Authentic Partial (Synthesized)"
    else "Requires Conceptual Reconstruction (Synthesized)"
  let allInterpretations := String.intercalate " "
    (chunkResults.enum.map fun ir =>
      "Chunk " ++ toString (ir.1 + 1) ++ ": " ++ ir.2.interpretation_summary)
  { authenticity_commentary :=
      "Synthesized analysis from " ++ toString chunksLen ++ " text chunks (" ++
        toString totalWords ++ " words total). " ++ allCommentaries
    reconstructed_passage :=
      String.intercalate "\n\n" (chunkResults.map (·.reconstructed_passage))
    diagnostic_block :=
      { RealityAnchor :=
          sumBy chunkResults (·.diagnostic_block.RealityAnchor) / (chunksLen : ℚ)
        CausalDepth :=
          sumBy chunkResults (·.diagnostic_block.CausalDepth) / (chunksLen : ℚ)
        Friction :=
          sumBy chunkResults (·.diagnostic_block.Friction) / (chunksLen : ℚ)
        Compression :=
          sumBy chunkResults (·.diagnostic_block.Compression) / (chunksLen : ℚ)
        SimulationIndex :=
          sumBy chunkResults (·.diagnostic_block.SimulationIndex) / (chunksLen : ℚ)
        LevelCoherence :=
          sumBy chunkResults (·.diagnostic_block.LevelCoherence) / (chunksLen : ℚ)
        CompositeScore := avgCompositeScore
        IntegrityType := integrityType }
    interpretation_summary := "Multi-chunk synthesis: " ++ allInterpretations }

/-- C4: if the word count is within the budget, `segmentText` returns exactly
the one-element list holding the input text unchanged. -/
theorem segmentText_single_chunk_identity (text : String) (maxWords : Nat)
    (h : countWords text ≤ maxWords) : segmentText text maxWords = [text] := by
  unfold segmentText
  simp [h]

/-- Witness for C4 at a concrete input. -/
theorem segmentText_single_chunk_identity_witness :
    countWords "hello brave world" ≤ 5 ∧
      segmentText "hello brave world" 5 = ["hello brave world"] :=
  ⟨by decide, segmentText_single_chunk_identity "hello brave world" 5 (by decide)⟩

/-- A backend reply for the inference module supplying an out-of-range
`judgment.coherenceScore` and nothing else. -/
def outOfRangeInferenceReply : EpistemicInferenceJSON where
  arguments := none
  judgment := some ⟨some 2, none, none, none, none⟩
  rewrittenText := none
  overallCoherence := none
  metaJudgment := none

/-- A backend reply for the utility module supplying `utilityRank: 99`. -/
def outOfRangeUtilityReply : KnowledgeUtilityJSON where
  operativeKnowledge := none
  utilityMappings := none
  utilityAugmentedRewrite := none
  judgmentReport := none
  utilityRank := some 99

/-- A backend reply for the inference module with every field missing. -/
def emptyInferenceReply : EpistemicInferenceJSON :=
  ⟨none, none, none, none, none⟩

/-- A backend reply for the utility module with every field missing. -/
def emptyUtilityReply : KnowledgeUtilityJSON :=
  ⟨none, none, none, none, none⟩

/-- C1: the per-module analyzers populate *missing* score fields with
in-range defaults, but pass numbers supplied by the backend through
unclamped, so an out-of-range backend value (coherenceScore 2, utilityRank
99) escapes the closed interval declared for the field in shared/schema.ts
(`z.number().min(0).max(1)` resp. `min(0).max(10)`). -/
theorem chunk_scores_not_clamped :
    (processEpistemicInferenceChunk "t" outOfRangeInferenceReply).judgment.coherenceScore
        = 2 ∧
    ¬ ((processEpistemicInferenceChunk "t" outOfRangeInferenceReply).judgment.coherenceScore
        ≤ 1) ∧
    (processKnowledgeUtilityChunk "t" outOfRangeUtilityReply).utilityRank = 99 ∧
    ¬ ((processKnowledgeUtilityChunk "t" outOfRangeUtilityReply).utilityRank ≤ 10) ∧
    (processEpistemicInferenceChunk "t" emptyInferenceReply).judgment.coherenceScore
        = 1/2 ∧
    (processEpistemicInferenceChunk "t" emptyInferenceReply).overallCoherence = 1/2 ∧
    (processKnowledgeUtilityChunk "t" emptyUtilityReply).utilityRank = 5 := by
  refine ⟨rfl, by decide, rfl, by decide, rfl, rfl, rfl⟩

/-- A parsed reply of the argument-detection prompt: every field may be
missing. -/
structure ArgumentDetectionJSON where
  isArgumentative : Option Bool
  confidence : Option ℚ
  reasoning : Option String
deriving Repr, DecidableEq, Inhabited

/-- Result type of `detectArgument` (src/server/processing.ts). -/
structure ArgumentDetectionResult where
  isArgumentative : Bool
  confidence : ℚ
  reasoning : String
deriving Repr, DecidableEq, Inhabited

/-- `detectArgument` from src/server/processing.ts, lines 106-142.
`hasInferenceMarkers` is the outcome of the inference-marker regex test on
the input text; `ai` is the outcome of the gateway call followed by
`JSON.parse` (`Except.error` covers both gateway exhaustion and a parse
error), consulted only when the heuristic found no marker. -/
def detectArgument (hasInferenceMarkers : Bool)
    (ai : Except String ArgumentDetectionJSON) : ArgumentDetectionResult :=
  if hasInferenceMarkers then
    ⟨true, 9/10, "Contains explicit inference markers"⟩
  else
    match ai with
    | .ok result =>
      ⟨result.isArgumentative.getD true, result.confidence.getD (1/2),
        result.reasoning.getD "Unable to determine"⟩
    | .error _ =>
      ⟨true, 1/2, "Detection service unavailable, proceeding with analysis"⟩

/-- C5: when the inference-marker heuristic does not match and the AI path
throws, `detectArgument` swallows the error and returns the permissive
default. -/
theorem detectArgument_error_default (e : String) :
    detectArgument false (.error e) =
      ⟨true, 1/2, "Detection service unavailable, proceeding with analysis"⟩ :=
  rfl

/-- `sumBy` is summation of the mapped list. -/
theorem sumBy_eq_sum_map (f : α → ℚ) (rs : List α) :
    sumBy rs f = (rs.map f).sum := by
  have h : ∀ (l : List α) (init : ℚ),
      l.foldl (fun sum r => sum + f r) init = init + (l.map f).sum := by
    intro l
    induction l with
    | nil => intro init; simp
    | cons x xs ih => intro init; simp [ih, add_assoc]
  simpa using h rs 0

/-- A backend reply whose `judgment.coherenceScore` (0) and
`overallCoherence` (1) disagree. -/
def mismatchedCoherenceReply : EpistemicInferenceJSON where
  arguments := none
  judgment := some ⟨some 0, none, none, none, none⟩
  rewrittenText := none
  overallCoherence := some 1
  metaJudgment := none

/-- Counterexample to C6 as stated: the synthesized
`judgment.coherenceScore` is the mean of the per-chunk `overallCoherence`
values, not of the per-chunk `judgment.coherenceScore` values; on two chunks
whose replies carry coherenceScore 0 but overallCoherence 1 the synthesized
`judgment.coherenceScore` is 1 while the mean of the corresponding per-chunk
scores is 0. -/
theorem synthesizeEpistemicInference_not_fieldwise_mean :
    (synthesizeEpistemicInference 10
        [processEpistemicInferenceChunk "c" mismatchedCoherenceReply,
         processEpistemicInferenceChunk "c" mismatchedCoherenceReply]).judgment.coherenceScore
      = 1 ∧
    sumBy [processEpistemicInferenceChunk "c" mismatchedCoherenceReply,
           processEpistemicInferenceChunk "c" mismatchedCoherenceReply]
        (fun r => r.judgment.coherenceScore) / 2 = 0 ∧
    (1 : ℚ) ≠ 0 := by
  refine ⟨?_, ?_, by norm_num⟩
  · simp [synthesizeEpistemicInference, processEpistemicInferenceChunk,
      mismatchedCoherenceReply, sumBy]
  · simp [processEpistemicInferenceChunk, mismatchedCoherenceReply, sumBy]

/-- C6 (amended): in multi-chunk synthesis every synthesized scalar score is
an unweighted arithmetic mean of per-chunk scores; for the inference module
both synthesized coherence fields are the mean of the per-chunk
`overallCoherence` (the per-chunk `judgment.coherenceScore` is not used),
while the justification coherence, the utility rank and the seven integrity
metrics are means of the same-named per-chunk fields. -/
theorem synthesize_scalar_means (totalWords : Nat)
    (rs1 : List EpistemicInferenceResult)
    (rs2 : List JustificationBuilderResult)
    (rs3 : List KnowledgeUtilityResult)
    (rs4 : List CognitiveIntegrityResult)
    (h1 : 2 ≤ rs1.length) (h2 : 2 ≤ rs2.length)
    (h3 : 2 ≤ rs3.length) (h4 : 2 ≤ rs4.length) :
    (synthesizeEpistemicInference totalWords rs1).judgment.coherenceScore
        = (rs1.map (·.overallCoherence)).sum / rs1.length ∧
    (synthesizeEpistemicInference totalWords rs1).overallCoherence
        = (rs1.map (·.overallCoherence)).sum / rs1.length ∧
    (synthesizeJustificationBuilder rs2).coherenceScore
        = (rs2.map (·.coherenceScore)).sum / rs2.length ∧
    (synthesizeKnowledgeUtility rs3).utilityRank
        = (rs3.map (·.utilityRank)).sum / rs3.length ∧
    (synthesizeCognitiveIntegrity totalWords rs4).diagnostic_block.RealityAnchor
        = (rs4.map (·.diagnostic_block.RealityAnchor)).sum / rs4.length ∧
    (synthesizeCognitiveIntegrity totalWords rs4).diagnostic_block.CausalDepth
        = (rs4.map (·.diagnostic_block.CausalDepth)).sum / rs4.length ∧
    (synthesizeCognitiveIntegrity totalWords rs4).diagnostic_block.Friction
        = (rs4.map (·.diagnostic_block.Friction)).sum / rs4.length ∧
    (synthesizeCognitiveIntegrity totalWords rs4).diagnostic_block.Compression
        = (rs4.map (·.diagnostic_block.Compression)).sum / rs4.length ∧
    (synthesizeCognitiveIntegrity totalWords rs4).diagnostic_block.SimulationIndex
        = (rs4.map (·.diagnostic_block.SimulationIndex)).sum / rs4.length ∧
    (synthesizeCognitiveIntegrity totalWords rs4).diagnostic_block.LevelCoherence
        = (rs4.map (·.diagnostic_block.LevelCoherence)).sum / rs4.length ∧
    (synthesizeCognitiveIntegrity totalWords rs4).diagnostic_block.CompositeScore
        = (rs4.map (·.diagnostic_block.CompositeScore)).sum / rs4.length := by
  refine ⟨?_, ?_, ?_, ?_, ?_, ?_, ?_, ?_, ?_, ?_, ?_⟩ <;>
    simp [synthesizeEpistemicInference, synthesizeJustificationBuilder,
      synthesizeKnowledgeUtility, synthesizeCognitiveIntegrity, sumBy_eq_sum_map]

/-- A backend reply carrying only an `overallCoherence` value. -/
def coherenceOnlyReply (q : ℚ) : EpistemicInferenceJSON :=
  ⟨none, none, none, some q, none⟩

/-- The three-chunk example of the spec: per-chunk coherence 0.6, 0.8, 0.7,
obtained through the chunk parser. -/
def exampleInferenceChunks : List EpistemicInferenceResult :=
  [processEpistemicInferenceChunk "c1" (coherenceOnlyReply (3/5)),
   processEpistemicInferenceChunk "c2" (coherenceOnlyReply (4/5)),
   processEpistemicInferenceChunk "c3" (coherenceOnlyReply (7/10))]

/-- Two all-defaulted justification chunk results. -/
def exampleJustificationChunks : List JustificationBuilderResult :=
  [processJustificationBuilderChunk "c1" ⟨none, none, none, none, none, none⟩,
   processJustificationBuilderChunk "c2" ⟨none, none, none, none, none, none⟩]

/-- Two all-defaulted utility chunk results. -/
def exampleUtilityChunks : List KnowledgeUtilityResult :=
  [processKnowledgeUtilityChunk "c1" emptyUtilityReply,
   processKnowledgeUtilityChunk "c2" emptyUtilityReply]

/-- Two all-defaulted integrity chunk results. -/
def exampleIntegrityChunks : List CognitiveIntegrityResult :=
  [processCognitiveIntegrityChunk "c1" ⟨none, none, none, none⟩,
   processCognitiveIntegrityChunk "c2" ⟨none, none, none, none⟩]

/-- Witness for C6 (amended) at concrete chunk lists, including the spec's
example: chunk coherences 0.6, 0.8, 0.7 synthesize to 0.70. -/
theorem synthesize_scalar_means_witness :
    2 ≤ exampleInferenceChunks.length ∧
    (synthesizeEpistemicInference 4500 exampleInferenceChunks).judgment.coherenceScore
        = 7/10 ∧
    (synthesizeJustificationBuilder exampleJustificationChunks).coherenceScore
        = 1/2 ∧
    (synthesizeKnowledgeUtility exampleUtilityChunks).utilityRank = 5 ∧
    (synthesizeCognitiveIntegrity 4500
        exampleIntegrityChunks).diagnostic_block.CompositeScore = 1/2 := by
  have h := synthesize_scalar_means 4500 exampleInferenceChunks
    exampleJustificationChunks exampleUtilityChunks exampleIntegrityChunks
    (by decide) (by decide) (by decide) (by decide)
  refine ⟨by decide, ?_, ?_, ?_, ?_⟩
  · rw [h.1]
    simp [exampleInferenceChunks, processEpistemicInferenceChunk, coherenceOnlyReply]
    norm_num
  · rw [h.2.2.1]
    simp [exampleJustificationChunks, processJustificationBuilderChunk]
  · rw [h.2.2.2.1]
    simp [exampleUtilityChunks, processKnowledgeUtilityChunk, emptyUtilityReply]
  · rw [h.2.2.2.2.2.2.2.2.2.2]
    simp [exampleIntegrityChunks, processCognitiveIntegrityChunk]

/-- The selection/scoring logic of `extractLawKind` (src/unnamed/part_003,
lines 28-73), parameterised by the per-category pattern-group match counts
(`<pattern list>.filter(p => p.test(text)).length` for each category). -/
def extractLawKindScored (universalScore proportionalScore probabilisticScore : ℕ) :
    String × ℚ :=
  let maxScore := max universalScore (max proportionalScore probabilisticScore)
  if maxScore = 0 then ("unclear", 3/10)
  else if universalScore = maxScore then
    ("universal_regularities", min (9/10) (6/10 + (universalScore : ℚ) * (1/10)))
  else if proportionalScore = maxScore then
    ("proportional_dependencies", min (9/10) (6/10 + (proportionalScore : ℚ) * (1/10)))
  else
    ("probabilistic_nomic", min (9/10) (6/10 + (probabilisticScore : ℚ) * (1/10)))

/-- The selection/scoring logic of `extractExplanationOrder`
(src/unnamed/part_003, lines 75-106). -/
def extractExplanationOrderScored (lawToInstanceScore instanceToLawScore : ℕ) :
    String × ℚ :=
  if lawToInstanceScore = 0 ∧ instanceToLawScore = 0 then ("unclear", 3/10)
  else if lawToInstanceScore > instanceToLawScore then
    ("law_to_instance", min (9/10) (6/10 + (lawToInstanceScore : ℚ) * (1/10)))
  else
    ("instance_to_law", min (9/10) (6/10 + (instanceToLawScore : ℚ) * (1/10)))

/-- The selection/scoring logic of `extractDNCommitment`
(src/unnamed/part_003, lines 108-143).  Note the final fall-through branch:
a nonzero tie returns `neutral` with confidence 0.5. -/
def extractDNCommitmentScored (acceptScore rejectScore : ℕ) : String × ℚ :=
  if acceptScore = 0 ∧ rejectScore = 0 then ("neutral", 3/10)
  else if acceptScore > rejectScore then
    ("accept", min (9/10) (6/10 + (acceptScore : ℚ) * (1/10)))
  else if rejectScore > acceptScore then
    ("reject", min (9/10) (6/10 + (rejectScore : ℚ) * (1/10)))
  else ("neutral", 1/2)

/-- The selection/scoring logic of `extractRegularityRole`
(src/unnamed/part_003, lines 145-174). -/
def extractRegularityRoleScored (foundationalScore surfaceScore : ℕ) : String × ℚ :=
  if foundationalScore = 0 ∧ surfaceScore = 0 then ("unclear", 3/10)
  else if foundationalScore > surfaceScore then
    ("foundational", min (9/10) (6/10 + (foundationalScore : ℚ) * (1/10)))
  else
    ("surface", min (9/10) (6/10 + (surfaceScore : ℚ) * (1/10)))

/-- First category of the list achieving the maximal count (used by the
claimed sub-scorer behaviour below). -/
def pickFirstMax : List (String × ℕ) → ℕ → String → String × ℚ
  | [], _, d => (d, 3/10)
  | c :: cs, m, d =>
    if c.2 = m then (c.1, min (9/10) (6/10 + (c.2 : ℚ) * (1/10)))
    else pickFirstMax cs m d

/-- Modelled from the claim's words (spec §4.5): pick the category with the
highest pattern-group match count, ties broken by the insertion order of the
categories, confidence `min(0.9, 0.6 + 0.1 × matchCount)`, or the default
value with confidence 0.3 when no pattern matched. -/
def subScorerClaimed (cats : List (String × ℕ)) (defaultValue : String) :
    String × ℚ :=
  let maxScore := cats.foldr (fun c m => max c.2 m) 0
  if maxScore = 0 then (defaultValue, 3/10)
  else pickFirstMax cats maxScore defaultValue

/-- Counterexample to C7 as stated: on a one-one tie the DN-commitment
scorer returns `neutral` with confidence 0.5, not the first-inserted
category `accept` with confidence 0.7 that the claimed tie-break rule
prescribes; the explanation-order scorer resolves the same tie toward the
*second* category (`instance_to_law`), not the first. -/
theorem stance_tiebreak_counterexample :
    extractDNCommitmentScored 1 1 = ("neutral", 1/2) ∧
    subScorerClaimed [("accept", 1), ("reject", 1)] "neutral" = ("accept", 7/10) ∧
    (("neutral", (1:ℚ)/2) : String × ℚ) ≠ ("accept", 7/10) ∧
    extractExplanationOrderScored 1 1 = ("instance_to_law", 7/10) ∧
    subScorerClaimed [("law_to_instance", 1), ("instance_to_law", 1)] "unclear"
      = ("law_to_instance", 7/10) ∧
    (("instance_to_law", (7:ℚ)/10) : String × ℚ) ≠ ("law_to_instance", 7/10) := by
  refine ⟨rfl, ?_, by simp, ?_, ?_, by simp⟩
  · simp [subScorerClaimed, pickFirstMax]
    norm_num
  · simp [extractExplanationOrderScored]
    norm_num
  · simp [subScorerClaimed, pickFirstMax]
    norm_num

/-- C7 (amended): each sub-scorer picks the category with the highest
pattern-group match count with confidence `min(0.9, 0.6 + 0.1 × count)` and
falls back to "unclear"/"neutral" with confidence 0.3 when nothing matched;
but the tie-break differs per scorer: law-kind resolves ties toward the
earlier category, explanation-order and regularity-role resolve ties toward
the later category, and DN-commitment returns `neutral` with confidence 0.5
on a nonzero tie. -/
theorem stance_scorers_characterization (u p q l i a r f s : ℕ) :
    extractLawKindScored u p q =
      subScorerClaimed [("universal_regularities", u),
        ("proportional_dependencies", p), ("probabilistic_nomic", q)] "unclear" ∧
    extractExplanationOrderScored l i =
      subScorerClaimed [("instance_to_law", i), ("law_to_instance", l)] "unclear" ∧
    extractDNCommitmentScored a r =
      (if a = r ∧ a ≠ 0 then ("neutral", 1/2)
       else subScorerClaimed [("accept", a), ("reject", r)] "neutral") ∧
    extractRegularityRoleScored f s =
      subScorerClaimed [("surface", s), ("foundational", f)] "unclear" := by
  refine ⟨?_, ?_, ?_, ?_⟩ <;>
  · simp only [extractLawKindScored, extractExplanationOrderScored,
      extractDNCommitmentScored, extractRegularityRoleScored, subScorerClaimed,
      pickFirstMax, List.foldr]
    split_ifs <;> first | rfl | omega

/-- The stance-token record (src/unnamed/part_003); the four categorical
dimensions are embedded as the strings the source compares them with. -/
structure StanceTokens where
  law_kind : String
  explanation_order : String
  dn_commitment : String
  regularity_role : String
  confidence : ℚ
deriving Repr, DecidableEq, Inhabited

/-- A parsed reply of the stance-extraction prompt: every field may be
missing. -/
structure StanceTokensJSON where
  law_kind : Option String
  explanation_order : Option String
  dn_commitment : Option String
  regularity_role : Option String
  confidence : Option ℚ
deriving Repr, DecidableEq, Inhabited

/-- JavaScript `x || d` for numbers: `null`/`undefined`/`0` fall back to the
default. -/
def jsOrRat (o : Option ℚ) (d : ℚ) : ℚ :=
  match o with
  | some v => if v = 0 then d else v
  | none => d

/-- `extractStanceWithAI` from src/unnamed/part_003, lines 198-224: `ai` is
the outcome of the gateway call followed by `JSON.parse` (`Except.error`
covers both gateway exhaustion and a parse error); the catch branch returns
the all-default tokens with confidence 0.3. -/
def extractStanceWithAI (ai : Except String StanceTokensJSON) : StanceTokens :=
  match ai with
  | .ok parsed =>
    { law_kind := jsOrString parsed.law_kind "unclear"
      explanation_order := jsOrString parsed.explanation_order "unclear"
      dn_commitment := jsOrString parsed.dn_commitment "neutral"
      regularity_role := jsOrString parsed.regularity_role "unclear"
      confidence := jsOrRat parsed.confidence (1/2) }
  | .error _ =>
    { law_kind := "unclear"
      explanation_order := "unclear"
      dn_commitment := "neutral"
      regularity_role := "unclear"
      confidence := 3/10 }

/-- `extractStanceTokens` from src/unnamed/part_003, lines 228-251,
parameterised by the four rule-based sub-scorer results on the input text
and by the AI-fallback outcome. -/
def extractStanceTokens (lawKind explanationOrder dnCommitment regularityRole :
    String × ℚ) (ai : Except String StanceTokensJSON) : StanceTokens :=
  let avgConfidence :=
    (lawKind.2 + explanationOrder.2 + dnCommitment.2 + regularityRole.2) / 4
  if avgConfidence ≥ 6/10 then
    { law_kind := lawKind.1
      explanation_order := explanationOrder.1
      dn_commitment := dnCommitment.1
      regularity_role := regularityRole.1
      confidence := avgConfidence }
  else extractStanceWithAI ai

/-- Counterexample to C8 as stated: when the rule-based aggregate confidence
is below 0.6 and the gateway reply fails to parse, the returned defaulted
tokens carry confidence 0.3, not the claimed 0.5. -/
theorem extractStanceTokens_parse_failure_confidence :
    extractStanceTokens ("unclear", 3/10) ("unclear", 3/10) ("neutral", 3/10)
        ("unclear", 3/10) (.error "SyntaxError") =
      ⟨"unclear", "unclear", "neutral", "unclear", 3/10⟩ ∧
    ((3:ℚ)/10) ≠ 1/2 := by
  constructor
  · have h : ¬(((3:ℚ)/10 + 3/10 + 3/10 + 3/10) / 4 ≥ 6/10) := by norm_num
    simp only [extractStanceTokens, extractStanceWithAI]
    rw [if_neg h]
  · norm_num

/-- C8 (amended): `extractStanceTokens` is total by construction; when the
aggregate confidence (mean of the four sub-scorer confidences) reaches 0.6
it returns the rule-based tokens with that aggregate, otherwise it discards
them and uses the single gateway call: a reply that fails to parse yields
all four fields defaulted to "unclear"/"neutral" with confidence 0.3, while
a parsed reply has each missing/falsy field defaulted ("unclear"/"neutral",
confidence 0.5). -/
theorem extractStanceTokens_spec (lk eo dn rr : String × ℚ)
    (ai : Except String StanceTokensJSON) :
    ((lk.2 + eo.2 + dn.2 + rr.2) / 4 ≥ 6/10 →
      extractStanceTokens lk eo dn rr ai =
        ⟨lk.1, eo.1, dn.1, rr.1, (lk.2 + eo.2 + dn.2 + rr.2) / 4⟩) ∧
    (¬ ((lk.2 + eo.2 + dn.2 + rr.2) / 4 ≥ 6/10) →
      (∀ e, ai = .error e →
        extractStanceTokens lk eo dn rr ai =
          ⟨"unclear", "unclear", "neutral", "unclear", 3/10⟩) ∧
      (∀ parsed, ai = .ok parsed →
        extractStanceTokens lk eo dn rr ai =
          ⟨jsOrString parsed.law_kind "unclear",
            jsOrString parsed.explanation_order "unclear",
            jsOrString parsed.dn_commitment "neutral",
            jsOrString parsed.regularity_role "unclear",
            jsOrRat parsed.confidence (1/2)⟩)) := by
  constructor
  · intro h
    simp only [extractStanceTokens]
    rw [if_pos h]
  · intro h
    constructor
    · intro e he
      subst he
      simp only [extractStanceTokens, extractStanceWithAI]
      rw [if_neg h]
    · intro parsed hp
      subst hp
      simp only [extractStanceTokens, extractStanceWithAI]
      rw [if_neg h]

/-- Witness for C8 (amended) at concrete inputs: a high-confidence rule pass
returns the rule tokens, a low-confidence pass with a parse failure returns
the 0.3-confidence defaults. -/
theorem extractStanceTokens_spec_witness :
    extractStanceTokens ("universal_regularities", 9/10) ("law_to_instance", 9/10)
        ("accept", 9/10) ("surface", 9/10) (.error "down") =
      ⟨"universal_regularities", "law_to_instance", "accept", "surface", 9/10⟩ ∧
    extractStanceTokens ("unclear", 3/10) ("unclear", 3/10) ("neutral", 3/10)
        ("unclear", 1/2) (.error "SyntaxError") =
      ⟨"unclear", "unclear", "neutral", "unclear", 3/10⟩ := by
  constructor
  · have h := (extractStanceTokens_spec ("universal_regularities", 9/10)
      ("law_to_instance", 9/10) ("accept", 9/10) ("surface", 9/10)
      (.error "down")).1 (by norm_num)
    rw [h]
    norm_num
  · exact ((extractStanceTokens_spec ("unclear", 3/10) ("unclear", 3/10)
      ("neutral", 3/10) ("unclear", 1/2) (.error "SyntaxError")).2
        (by norm_num)).1 "SyntaxError" rfl

/-- Substring containment on character lists
(`String.prototype.includes`). -/
def containsSubChars (pat : List Char) : List Char → Bool
  | [] => pat.isPrefixOf ([] : List Char)
  | c :: cs => pat.isPrefixOf (c :: cs) || containsSubChars pat cs

/-- `expected.includes(pat)` on strings. -/
def strIncludes (s pat : String) : Bool :=
  containsSubChars pat.data s.data

/-- The running mutable state of `computeDoctrineAlignment` (`score`,
`conflicts`, `alignments`). -/
structure AlignState where
  score : ℚ
  conflicts : List String
  alignments : List String
deriving Repr, DecidableEq, Inhabited

/-- The alignment report (src/unnamed/part_003, `DoctrineAlignment`); the
four optional mismatch details are flattened into one field per dimension,
each carrying `(expected, found)`. -/
structure DoctrineAlignment where
  crossPhaseCoherence : ℚ
  conflicts : List String
  alignments : List String
  mismatch_law_kind : Option (String × String)
  mismatch_explanation_order : Option (String × String)
  mismatch_dn_commitment : Option (String × String)
  mismatch_regularity_role : Option (String × String)
deriving Repr, DecidableEq, Inhabited

/-- The law-kind check of `computeDoctrineAlignment` (src/unnamed/part_003,
lines 264-274). -/
def checkLawKind (st : StanceTokens) (doctrines : String → Option String)
    (acc : AlignState) : AlignState × Option (String × String) :=
  let expectedLawType := jsOrString (doctrines "LAW_TYPE") "proportional_dependencies"
  if st.law_kind ≠ "unclear" then
    if st.law_kind ≠ expectedLawType then
      (⟨acc.score - 2/5,
        acc.conflicts ++ ["Law conception: found \"" ++ st.law_kind ++
          "\", expected \"" ++ expectedLawType ++ "\""],
        acc.alignments⟩, some (expectedLawType, st.law_kind))
    else
      (⟨acc.score, acc.conflicts,
        acc.alignments ++ ["Law conception aligns with doctrine"]⟩, none)
  else (acc, none)

/-- The explanation-order check of `computeDoctrineAlignment`
(src/unnamed/part_003, lines 277-286). -/
def checkExplanationOrder (st : StanceTokens) (doctrines : String → Option String)
    (acc : AlignState) : AlignState × Option (String × String) :=
  let expectedOrder := jsOrString (doctrines "EXPLANATION_ORDER") "instance_to_law"
  if st.explanation_order ≠ "unclear" then
    if st.explanation_order ≠ expectedOrder then
      (⟨acc.score - 2/5,
        acc.conflicts ++ ["Explanation order: found \"" ++ st.explanation_order ++
          "\", expected \"" ++ expectedOrder ++ "\""],
        acc.alignments⟩, some (expectedOrder, st.explanation_order))
    else
      (⟨acc.score, acc.conflicts,
        acc.alignments ++ ["Explanation order aligns with doctrine"]⟩, none)
  else (acc, none)

/-- The DN-commitment check of `computeDoctrineAlignment`
(src/unnamed/part_003, lines 289-300): the match relation translates
between the policy vocabulary ("rejected"/"accepted") and the stance
vocabulary ("reject"/"accept"). -/
def checkDNCommitment (st : StanceTokens) (doctrines : String → Option String)
    (acc : AlignState) : AlignState × Option (String × String) :=
  let expectedDN := jsOrString (doctrines "DN_MODEL") "rejected"
  if st.dn_commitment ≠ "neutral" then
    if (expectedDN = "rejected" ∧ st.dn_commitment = "reject") ∨
        (expectedDN = "accepted" ∧ st.dn_commitment = "accept") then
      (⟨acc.score, acc.conflicts,
        acc.alignments ++ ["DN model position aligns with doctrine"]⟩, none)
    else
      (⟨acc.score - 2/5,
        acc.conflicts ++ ["DN model commitment: found \"" ++ st.dn_commitment ++
          "\", expected \"" ++ expectedDN ++ "\""],
        acc.alignments⟩, some (expectedDN, st.dn_commitment))
  else (acc, none)

/-- The regularity-role check of `computeDoctrineAlignment`
(src/unnamed/part_003, lines 303-313): a match requires the expected policy
string to *contain* "surface" and the stance to be "surface". -/
def checkRegularityRole (st : StanceTokens) (doctrines : String → Option String)
    (acc : AlignState) : AlignState × Option (String × String) :=
  let expectedRegularity :=
    jsOrString (doctrines "REGULARITY_STATUS") "surface shadow; not constitutive"
  if st.regularity_role ≠ "unclear" then
    if strIncludes expectedRegularity "surface" = true ∧
        st.regularity_role = "surface" then
      (⟨acc.score, acc.conflicts,
        acc.alignments ++ ["Regularity status aligns with doctrine"]⟩, none)
    else
      (⟨acc.score - 1/5,
        acc.conflicts ++ ["Regularity role: found \"" ++ st.regularity_role ++
          "\", expected \"surface\""],
        acc.alignments⟩, some ("surface", st.regularity_role))
  else (acc, none)

/-- `computeDoctrineAlignment` from src/unnamed/part_003, lines 255-324:
starts the score at 1.0, runs the four dimension checks in the fixed order
law-kind, explanation-order, DN-commitment, regularity-role, and clamps the
final score to [0,1]. -/
def computeDoctrineAlignment (st : StanceTokens)
    (doctrines : String → Option String) : DoctrineAlignment :=
  let r1 := checkLawKind st doctrines ⟨1, [], []⟩
  let r2 := checkExplanationOrder st doctrines r1.1
  let r3 := checkDNCommitment st doctrines r2.1
  let r4 := checkRegularityRole st doctrines r3.1
  { crossPhaseCoherence := max 0 (min 1 r4.1.score)
    conflicts := r4.1.conflicts
    alignments := r4.1.alignments
    mismatch_law_kind := r1.2
    mismatch_explanation_order := r2.2
    mismatch_dn_commitment := r3.2
    mismatch_regularity_role := r4.2 }

/-- The stance of the C9 counterexample: only the regularity-role dimension
is determinate, with value "foundational". -/
def cexStance : StanceTokens :=
  ⟨"unclear", "unclear", "neutral", "foundational", 3/10⟩

/-- The policy of the C9 counterexample: `REGULARITY_STATUS` is set to
"foundational" and every other key is absent. -/
def cexDoctrines : String → Option String :=
  fun k => if k = "REGULARITY_STATUS" then some "foundational" else none

/-- Modelled from the spec's words (spec §4.6, C9): for each determinate
dimension compare the stance against the policy's expected value (falling
back to the hardcoded default when the key is absent); a conflict with the
dimension penalty exactly on mismatch, an alignment exactly on match;
declarative form with the total deduction clamped to [0,1]. -/
def computeDoctrineAlignmentAmended (st : StanceTokens)
    (doctrines : String → Option String) : DoctrineAlignment :=
  let expectedLawType := jsOrString (doctrines "LAW_TYPE") "proportional_dependencies"
  let expectedOrder := jsOrString (doctrines "EXPLANATION_ORDER") "instance_to_law"
  let expectedDN := jsOrString (doctrines "DN_MODEL") "rejected"
  let expectedRegularity :=
    jsOrString (doctrines "REGULARITY_STATUS") "surface shadow; not constitutive"
  let lawConflict := st.law_kind ≠ "unclear" ∧ st.law_kind ≠ expectedLawType
  let lawAlign := st.law_kind ≠ "unclear" ∧ st.law_kind = expectedLawType
  let ordConflict := st.explanation_order ≠ "unclear" ∧ st.explanation_order ≠ expectedOrder
  let ordAlign := st.explanation_order ≠ "unclear" ∧ st.explanation_order = expectedOrder
  let dnMatch := (expectedDN = "rejected" ∧ st.dn_commitment = "reject") ∨
    (expectedDN = "accepted" ∧ st.dn_commitment = "accept")
  let dnConflict := st.dn_commitment ≠ "neutral" ∧ ¬ dnMatch
  let dnAlign := st.dn_commitment ≠ "neutral" ∧ dnMatch
  let regMatch := strIncludes expectedRegularity "surface" = true ∧
    st.regularity_role = "surface"
  let regConflict := st.regularity_role ≠ "unclear" ∧ ¬ regMatch
  let regAlign := st.regularity_role ≠ "unclear" ∧ regMatch
  { crossPhaseCoherence := max 0 (min 1 (1 -
      ((if lawConflict then (2:ℚ)/5 else 0) + (if ordConflict then 2/5 else 0) +
        (if dnConflict then 2/5 else 0) + (if regConflict then 1/5 else 0))))
    conflicts :=
      (if lawConflict then ["Law conception: found \"" ++ st.law_kind ++
        "\", expected \"" ++ expectedLawType ++ "\""] else []) ++
      (if ordConflict then ["Explanation order: found \"" ++ st.explanation_order ++
        "\", expected \"" ++ expectedOrder ++ "\""] else []) ++
      (if dnConflict then ["DN model commitment: found \"" ++ st.dn_commitment ++
        "\", expected \"" ++ expectedDN ++ "\""] else []) ++
      (if regConflict then ["Regularity role: found \"" ++ st.regularity_role ++
        "\", expected \"surface\""] else [])
    alignments :=
      (if lawAlign then ["Law conception aligns with doctrine"] else []) ++
      (if ordAlign then ["Explanation order aligns with doctrine"] else []) ++
      (if dnAlign then ["DN model position aligns with doctrine"] else []) ++
      (if regAlign then ["Regularity status aligns with doctrine"] else [])
    mismatch_law_kind :=
      if lawConflict then some (expectedLawType, st.law_kind) else none
    mismatch_explanation_order :=
      if ordConflict then some (expectedOrder, st.explanation_order) else none
    mismatch_dn_commitment :=
      if dnConflict then some (expectedDN, st.dn_commitment) else none
    mismatch_regularity_role :=
      if regConflict then some ("surface", st.regularity_role) else none }

/-- Helper lemma: declarative description of the law-kind check. -/
theorem checkLawKind_eq (st : StanceTokens) (doctrines : String → Option String)
    (acc : AlignState) :
    checkLawKind st doctrines acc =
      (⟨acc.score - (if st.law_kind ≠ "unclear" ∧
          st.law_kind ≠ jsOrString (doctrines "LAW_TYPE") "proportional_dependencies"
          then 2/5 else 0),
        acc.conflicts ++ (if st.law_kind ≠ "unclear" ∧
          st.law_kind ≠ jsOrString (doctrines "LAW_TYPE") "proportional_dependencies"
          then ["Law conception: found \"" ++ st.law_kind ++ "\", expected \"" ++
            jsOrString (doctrines "LAW_TYPE") "proportional_dependencies" ++ "\""]
          else []),
        acc.alignments ++ (if st.law_kind ≠ "unclear" ∧
          st.law_kind = jsOrString (doctrines "LAW_TYPE") "proportional_dependencies"
          then ["Law conception aligns with doctrine"] else [])⟩,
       if st.law_kind ≠ "unclear" ∧
          st.law_kind ≠ jsOrString (doctrines "LAW_TYPE") "proportional_dependencies"
       then some (jsOrString (doctrines "LAW_TYPE") "proportional_dependencies",
          st.law_kind)
       else none) := by
  unfold checkLawKind
  split_ifs <;> simp_all

/-- Helper lemma: declarative description of the explanation-order check. -/
theorem checkExplanationOrder_eq (st : StanceTokens)
    (doctrines : String → Option String) (acc : AlignState) :
    checkExplanationOrder st doctrines acc =
      (⟨acc.score - (if st.explanation_order ≠ "unclear" ∧
          st.explanation_order ≠ jsOrString (doctrines "EXPLANATION_ORDER") "instance_to_law"
          then 2/5 else 0),
        acc.conflicts ++ (if st.explanation_order ≠ "unclear" ∧
          st.explanation_order ≠ jsOrString (doctrines "EXPLANATION_ORDER") "instance_to_law"
          then ["Explanation order: found \"" ++ st.explanation_order ++
            "\", expected \"" ++
            jsOrString (doctrines "EXPLANATION_ORDER") "instance_to_law" ++ "\""]
          else []),
        acc.alignments ++ (if st.explanation_order ≠ "unclear" ∧
          st.explanation_order = jsOrString (doctrines "EXPLANATION_ORDER") "instance_to_law"
          then ["Explanation order aligns with doctrine"] else [])⟩,
       if st.explanation_order ≠ "unclear" ∧
          st.explanation_order ≠ jsOrString (doctrines "EXPLANATION_ORDER") "instance_to_law"
       then some (jsOrString (doctrines "EXPLANATION_ORDER") "instance_to_law",
          st.explanation_order)
       else none) := by
  unfold checkExplanationOrder
  split_ifs <;> simp_all

/-- Helper lemma: declarative description of the DN-commitment check. -/
theorem checkDNCommitment_eq (st : StanceTokens)
    (doctrines : String → Option String) (acc : AlignState) :
    checkDNCommitment st doctrines acc =
      (⟨acc.score - (if st.dn_commitment ≠ "neutral" ∧
          ¬ ((jsOrString (doctrines "DN_MODEL") "rejected" = "rejected" ∧
              st.dn_commitment = "reject") ∨
            (jsOrString (doctrines "DN_MODEL") "rejected" = "accepted" ∧
              st.dn_commitment = "accept"))
          then 2/5 else 0),
        acc.conflicts ++ (if st.dn_commitment ≠ "neutral" ∧
          ¬ ((jsOrString (doctrines "DN_MODEL") "rejected" = "rejected" ∧
              st.dn_commitment = "reject") ∨
            (jsOrString (doctrines "DN_MODEL") "rejected" = "accepted" ∧
              st.dn_commitment = "accept"))
          then ["DN model commitment: found \"" ++ st.dn_commitment ++
            "\", expected \"" ++ jsOrString (doctrines "DN_MODEL") "rejected" ++ "\""]
          else []),
        acc.alignments ++ (if st.dn_commitment ≠ "neutral" ∧
          ((jsOrString (doctrines "DN_MODEL") "rejected" = "rejected" ∧
              st.dn_commitment = "reject") ∨
            (jsOrString (doctrines "DN_MODEL") "rejected" = "accepted" ∧
              st.dn_commitment = "accept"))
          then ["DN model position aligns with doctrine"] else [])⟩,
       if st.dn_commitment ≠ "neutral" ∧
          ¬ ((jsOrString (doctrines "DN_MODEL") "rejected" = "rejected" ∧
              st.dn_commitment = "reject") ∨
            (jsOrString (doctrines "DN_MODEL") "rejected" = "accepted" ∧
              st.dn_commitment = "accept"))
       then some (jsOrString (doctrines "DN_MODEL") "rejected", st.dn_commitment)
       else none) := by
  unfold checkDNCommitment
  split_ifs <;> simp_all

/-- Helper lemma: declarative description of the regularity-role check. -/
theorem checkRegularityRole_eq (st : StanceTokens)
    (doctrines : String → Option String) (acc : AlignState) :
    checkRegularityRole st doctrines acc =
      (⟨acc.score - (if st.regularity_role ≠ "unclear" ∧
          ¬ (strIncludes (jsOrString (doctrines "REGULARITY_STATUS")
              "surface shadow; not constitutive") "surface" = true ∧
            st.regularity_role = "surface")
          then 1/5 else 0),
        acc.conflicts ++ (if st.regularity_role ≠ "unclear" ∧
          ¬ (strIncludes (jsOrString (doctrines "REGULARITY_STATUS")
              "surface shadow; not constitutive") "surface" = true ∧
            st.regularity_role = "surface")
          then ["Regularity role: found \"" ++ st.regularity_role ++
            "\", expected \"surface\""] else []),
        acc.alignments ++ (if st.regularity_role ≠ "unclear" ∧
          (strIncludes (jsOrString (doctrines "REGULARITY_STATUS")
              "surface shadow; not constitutive") "surface" = true ∧
            st.regularity_role = "surface")
          then ["Regularity status aligns with doctrine"] else [])⟩,
       if st.regularity_role ≠ "unclear" ∧
          ¬ (strIncludes (jsOrString (doctrines "REGULARITY_STATUS")
              "surface shadow; not constitutive") "surface" = true ∧
            st.regularity_role = "surface")
       then some ("surface", st.regularity_role)
       else none) := by
  unfold checkRegularityRole
  split_ifs <;> simp_all

/-- Counterexample to C9 as stated: with the policy expecting
"foundational" for the regularity dimension and the stance equal to that
expected value, the code still records a conflict (and deducts 0.2), because
its match relation requires the expected string to contain "surface" — a
conflict is *not* recorded exactly when the stance differs from the policy's
expected value. -/
theorem computeDoctrineAlignment_equality_counterexample :
    cexStance.regularity_role =
      jsOrString (cexDoctrines "REGULARITY_STATUS") "surface shadow; not constitutive" ∧
    (computeDoctrineAlignment cexStance cexDoctrines).crossPhaseCoherence = 4/5 ∧
    (computeDoctrineAlignment cexStance cexDoctrines).conflicts =
      ["Regularity role: found \"foundational\", expected \"surface\""] ∧
    (computeDoctrineAlignment cexStance cexDoctrines).alignments = [] := by
  have hs : strIncludes "foundational" "surface" = false := by decide
  have h1 : ¬ ("foundational" : String) = "unclear" := by decide
  have h2 : ¬ ("foundational" : String) = "surface" := by decide
  have h3 : ¬ ("foundational" : String) = "" := by decide
  refine ⟨by decide, ?_, ?_, ?_⟩ <;>
  · unfold computeDoctrineAlignment
    simp only [checkLawKind_eq, checkExplanationOrder_eq, checkDNCommitment_eq,
      checkRegularityRole_eq]
    norm_num [cexStance, cexDoctrines, jsOrString, hs, h1, h2, h3, min_def, max_def]
    try decide

/-- C9 (amended): `computeDoctrineAlignment` equals the declarative scorer:
it starts at 1.0, checks the four dimensions in the fixed order, and for
each determinate dimension records a conflict (deducting 0.4, 0.4, 0.4, 0.2
respectively) exactly when the dimension's *match relation* fails and an
alignment exactly when it holds, where law-kind and explanation-order match
by equality with the policy's expected value (hardcoded defaults when the
key is absent), DN-commitment matches via the rejected/reject and
accepted/accept translation, and regularity-role matches exactly when the
expected policy string contains "surface" and the stance is "surface";
indeterminate dimensions contribute nothing, and the final score is the
clamp to [0,1] of 1 minus the sum of the incurred penalties. -/
theorem computeDoctrineAlignment_eq_amended (st : StanceTokens)
    (doctrines : String → Option String) :
    computeDoctrineAlignment st doctrines =
      computeDoctrineAlignmentAmended st doctrines := by
  unfold computeDoctrineAlignment computeDoctrineAlignmentAmended
  simp only [checkLawKind_eq, checkExplanationOrder_eq, checkDNCommitment_eq,
    checkRegularityRole_eq]
  simp only [DoctrineAlignment.mk.injEq, List.nil_append, List.append_assoc,
    and_true, true_and]
  congr 2
  ring

/-- The squared-magnitude accumulator of `cosineSimilarity`
(`magnitudeA += vecA[i] * vecA[i]` over the loop). -/
noncomputable def sumSquares (vec : List ℝ) : ℝ :=
  vec.foldl (fun s x => s + x * x) 0

/-- The dot-product accumulator of `cosineSimilarity` (the loop pairs
`vecA[i]` with `vecB[i]`; on equal-length vectors this is the fold over the
zipped lists). -/
noncomputable def dotProductOf (vecA vecB : List ℝ) : ℝ :=
  (vecA.zip vecB).foldl (fun s p => s + p.1 * p.2) 0

open Classical in
/-- `cosineSimilarity` from src/server/processing.ts, lines 445-462: when
either magnitude is zero it returns 0 without dividing; otherwise it divides
the dot product by the magnitude product. -/
noncomputable def cosineSimilarity (vecA vecB : List ℝ) : ℝ :=
  let magnitudeA := Real.sqrt (sumSquares vecA)
  let magnitudeB := Real.sqrt (sumSquares vecB)
  if magnitudeA = 0 ∨ magnitudeB = 0 then 0
  else dotProductOf vecA vecB / (magnitudeA * magnitudeB)

/-- C10: `cosineSimilarity` is total on every pair of equal-length vectors:
if either magnitude is zero the result is 0 and the division is never
reached; the quotient form is produced only when both magnitudes are
nonzero. -/
theorem cosineSimilarity_zero_guard (vecA vecB : List ℝ) :
    ((Real.sqrt (sumSquares vecA) = 0 ∨ Real.sqrt (sumSquares vecB) = 0) →
      cosineSimilarity vecA vecB = 0) ∧
    (Real.sqrt (sumSquares vecA) ≠ 0 → Real.sqrt (sumSquares vecB) ≠ 0 →
      cosineSimilarity vecA vecB =
        dotProductOf vecA vecB /
          (Real.sqrt (sumSquares vecA) * Real.sqrt (sumSquares vecB))) := by
  constructor
  · intro h
    simp only [cosineSimilarity]
    rw [if_pos h]
  · intro hA hB
    simp only [cosineSimilarity]
    rw [if_neg (by push_neg; exact ⟨hA, hB⟩)]

/-- Witness for C10: the zero vector `[0, 0]` against `[3, 4]` yields 0 (and
`[3, 4]` against itself yields the genuine quotient). -/
theorem cosineSimilarity_zero_guard_witness :
    cosineSimilarity [(0 : ℝ), 0] [3, 4] = 0 := by
  apply (cosineSimilarity_zero_guard [(0 : ℝ), 0] [3, 4]).1
  left
  have h : sumSquares [(0 : ℝ), 0] = 0 := by
    simp [sumSquares]
  rw [h, Real.sqrt_zero]

end EpistemicEngine
